import Mathlib

/-!
Shallow embedding of `Ernest05/lavalink.js` (files `src/Player.js` and
`src/PlayerInstance.js`) in Lean 4, together with theorems settling the
frozen claims about the library.

Modelling conventions:
* A JavaScript value that may be `undefined`/`null` is an `Option`.
* JS string truthiness: `undefined`, `null` and the empty string are falsy.
* JS numbers appearing as volumes are modelled as `ℚ` (the code only ever
  compares them and takes `%` against `parseInt` of themselves; `NaN`
  outcomes of `%` are handled explicitly where they occur).
* A method call is a pure function from the receiver's state (plus
  arguments) to a result record holding: the JS return value (or the
  thrown error message), the updated state, and the ordered list of
  observable effects (`server.send` payloads, `this.emit` events,
  shard-websocket packets).
* State of the external chat client (guilds, channels, permissions,
  listener counts, clock) is passed in as explicit arguments.
-/

namespace Lavalink

/-- JS truthiness of an optional string: `undefined`/`null` (`none`) and
the empty string are falsy. -/
def strFalsy : Option String → Bool
  | none => true
  | some s => s.isEmpty

/-- A raw `VOICE_SERVER_UPDATE` payload (`packet.d` in
`PlayerInstance.js`); only `guild_id` is read by the library, the other
fields ride along opaquely. -/
structure RawVoicePacket where
  guild_id : String
  token : String := ""
  endpoint : String := ""
deriving DecidableEq, Repr

/-- The argument of `Player.connect`: built in
`PlayerInstance.voiceServerUpdate` as `{ session, event: packet }`. -/
structure ConnectPacket where
  session : String
  event : RawVoicePacket
deriving DecidableEq, Repr

/-- A JSON payload passed to `this.server.send(...)` (the Lavalink
websocket), one constructor per `op` occurring in `Player.js`. -/
inductive ServerMsg
  | voiceUpdate (guildId : String) (sessionId : String) (event : RawVoicePacket)
  | play (guildId : String) (track : String)
  | stop (guildId : String)
  | pause (guildId : String) (paused : Bool)
  | volume (guildId : String) (vol : ℚ)
  | destroy (guildId : String)
deriving DecidableEq, Repr

/-- An event message received from the Lavalink server and dispatched by
`Player.eventEmitter`; `reason` is only present on track-end messages. -/
structure EventMessage where
  type : String
  reason : Option String := none
deriving DecidableEq, Repr

/-- An event emitted on the player itself via `this.emit(...)`. -/
inductive PlayerEvent
  | disconnect (reason : String)
  | trackStart
  | trackEnd (message : EventMessage)
  | error (message : EventMessage)
deriving DecidableEq, Repr

/-- An `op: 4` voice-state packet sent through `sendWS` to the shard
websocket (from `PlayerInstance.join` and `PlayerInstance.leave`). -/
structure VoiceStatePacket where
  guild_id : String
  channel_id : Option String
  self_mute : Bool
  self_deaf : Bool
deriving DecidableEq, Repr

/-- One observable side effect of a `Player` method, in program order. -/
inductive Effect
  | send (msg : ServerMsg)
  | emit (event : PlayerEvent)
deriving DecidableEq, Repr

/-- The JS return value of a `Player` method: either `undefined` (no
`return` statement) or `this` (the player instance). -/
inductive JsRet
  | undefined
  | thisPlayer
deriving DecidableEq, Repr

/-- The mutable state of a `Player` object (constructor of `Player.js`).
`volume` and `equalizer` are the two fields of `this.state`; `playing`
and `track` are the fields dynamically assigned by `eventEmitter` on
`TrackEndEvent` (they start out `undefined`, hence `Option`; `track` is
assigned `null`, hence `Option (Option String)`). -/
structure Player where
  server : String
  guildID : String
  channelID : String
  queue : List String := []
  currentTrack : Option String := none
  isPlaying : Bool := false
  isPaused : Bool := false
  volume : ℚ := 100
  equalizer : List ℚ := []
  startPlayingTimestamp : Option ℕ := none
  playing : Option Bool := none
  track : Option (Option String) := none
deriving DecidableEq, Repr

/-- Decidable equality for `Except`, needed so that results of method
calls can be compared by `decide` on concrete inputs. -/
def Except.decEq {ε α : Type} [DecidableEq ε] [DecidableEq α] :
    (a b : Except ε α) → Decidable (a = b)
  | .ok a, .ok b =>
    if h : a = b then .isTrue (by rw [h])
    else .isFalse (by intro hab; cases hab; exact h rfl)
  | .ok _, .error _ => .isFalse (by intro hab; cases hab)
  | .error _, .ok _ => .isFalse (by intro hab; cases hab)
  | .error e, .error f =>
    if h : e = f then .isTrue (by rw [h])
    else .isFalse (by intro hab; cases hab; exact h rfl)

instance {ε α : Type} [DecidableEq ε] [DecidableEq α] : DecidableEq (Except ε α) :=
  Except.decEq

/-- Result of one `Player` method call: JS return value or thrown error,
the player state afterwards, and the effects performed, in order. -/
structure PlayerRes where
  result : Except String JsRet
  player : Player
  effects : List Effect
deriving DecidableEq, Repr

namespace Player

/-- Method `Player.connect(packet)`: sends a `voiceUpdate` payload to the
Lavalink server and returns `this`. -/
def connect (p : Player) (packet : ConnectPacket) : PlayerRes :=
  { result := .ok .thisPlayer
    player := p
    effects := [.send (.voiceUpdate p.guildID packet.session packet.event)] }

/-- Method `Player.stop()`: sends a `stop` payload, clears `isPlaying` and
`currentTrack`, returns `this`. -/
def stop (p : Player) : PlayerRes :=
  { result := .ok .thisPlayer
    player := { p with isPlaying := false, currentTrack := none }
    effects := [.send (.stop p.guildID)] }

/-- Method `Player.disconnect(reason)`: calls `stop()`, emits `disconnect`,
sets `isPlaying = false` again, returns `this`. -/
def disconnect (p : Player) (reason : String) : PlayerRes :=
  let s := p.stop
  { result := .ok .thisPlayer
    player := { s.player with isPlaying := false }
    effects := s.effects ++ [.emit (.disconnect reason)] }

/-- Method `Player.play(track, options)`: throws when `track` is falsy;
otherwise records `currentTrack`, sends a `play` payload, sets
`isPlaying` and the start timestamp (`Date.now()` passed in as `now`),
and returns `this`. -/
def play (p : Player) (track : Option String) (now : ℕ) : PlayerRes :=
  if strFalsy track then
    { result := .error "Please provide a valid base64 track!"
      player := p
      effects := [] }
  else
    { result := .ok .thisPlayer
      player := { p with
        currentTrack := track
        isPlaying := true
        startPlayingTimestamp := some now }
      effects := [.send (.play p.guildID (track.getD ""))] }

/-- Method `Player.pause(paused = true)`: sends a `pause` payload, sets
`isPaused = paused` and `isPlaying = !!paused`, returns `this`. -/
def pause (p : Player) (paused : Bool := true) : PlayerRes :=
  { result := .ok .thisPlayer
    player := { p with isPaused := paused, isPlaying := paused }
    effects := [.send (.pause p.guildID paused)] }

/-- Method `Player.resume()`: calls `pause(false)` and discards its return
value, so the method itself returns `undefined`. -/
def resume (p : Player) : PlayerRes :=
  let r := p.pause false
  { result := .ok .undefined, player := r.player, effects := r.effects }

/-- Method `Player.skip()`: calls `stop()` and discards its return value, so
the method itself returns `undefined`. -/
def skip (p : Player) : PlayerRes :=
  let r := p.stop
  { result := .ok .undefined, player := r.player, effects := r.effects }

/-- JS `parseInt` applied to a number: truncation toward zero. -/
def ratTrunc (q : ℚ) : ℤ :=
  if 0 ≤ q then ⌊q⌋ else ⌈q⌉

/-- The test `volume % parseInt(volume) !== 0` of `Player.setVolume`.
When `parseInt(volume)` is `0` the JS `%` yields `NaN` and the `!== 0`
test is true; otherwise JS `%` is `volume - t * trunc(volume / t)` for
`t = parseInt(volume)`. -/
def remNonzero (q : ℚ) : Bool :=
  if ratTrunc q = 0 then true
  else decide (q - (ratTrunc q : ℚ) * ((ratTrunc (q / (ratTrunc q : ℚ))) : ℚ) ≠ 0)

/-- Method `Player.setVolume(volume, force = false)`: four validation checks in
order (falsy, non-integer, out of `[0, 1000]`, over `100` without
`force`), each throwing before any effect; on success sends a `volume`
payload, updates `state.volume`, and returns `this`. -/
def setVolume (p : Player) (volume : Option ℚ) (force : Bool := false) : PlayerRes :=
  match volume with
  | none =>
    { result := .error "Please provide a valid volume value!"
      player := p, effects := [] }
  | some v =>
    if v = 0 then
      { result := .error "Please provide a valid volume value!"
        player := p, effects := [] }
    else if v = 0 ∨ remNonzero v then
      { result := .error "The volume have to be an integer number!"
        player := p, effects := [] }
    else if v < 0 ∨ 1000 < v then
      { result := .error "The volume doesn\x27t have to be inferior to 0, or superior to 1000!"
        player := p, effects := [] }
    else if 100 < v ∧ ¬force then
      { result := .error "To set the volume value over 100, you have to set force option to true."
        player := p, effects := [] }
    else
      { result := .ok .thisPlayer
        player := { p with volume := v }
        effects := [.send (.volume p.guildID v)] }

/-- Method `Player.destroy()`: sends a `destroy` payload and returns `this`. -/
def destroy (p : Player) : PlayerRes :=
  { result := .ok .thisPlayer
    player := p
    effects := [.send (.destroy p.guildID)] }

/-- Method `Player.eventEmitter(message)`: dispatch on `message.type`.
`errorListeners` is `this.listenerCount(\x7berror\x7d)`, external
event-emitter state. The method returns `undefined` or the result of
`emit`; its return value is not modelled, only state and effects. -/
def eventEmitter (p : Player) (message : EventMessage) (errorListeners : ℕ) :
    Player × List Effect :=
  if message.type = "TrackStartEvent" then
    (p, [.emit .trackStart])
  else if message.type = "TrackEndEvent" then
    let p' := if message.reason ≠ some "REPLACED" then
        { p with playing := some false, track := some none }
      else p
    (p', [.emit (.trackEnd message)])
  else if message.type = "TrackExceptionEvent" then
    if errorListeners ≠ 0 then (p, [.emit (.error message)]) else (p, [])
  else if message.type = "TrackStuckEvent" then
    let s := p.stop
    (s.player, s.effects ++ [.emit (.trackEnd message)])
  else (p, [])

end Player

/-- Assignment `obj[k] = v` on a JS object modelled as an association
list: overwrite in place when the key is present, append otherwise. -/
def objSet (ps : List (String × Player)) (k : String) (v : Player) :
    List (String × Player) :=
  match ps with
  | [] => [(k, v)]
  | (k', v') :: rest => if k' = k then (k, v) :: rest else (k', v') :: objSet rest k v

/-- Deletion `delete obj[k]` on a JS object modelled as an association list. -/
def objDelete (ps : List (String × Player)) (k : String) :
    List (String × Player) :=
  ps.filter (fun kv => kv.1 ≠ k)

/-- The mutable state of a `PlayerInstance` object that the library
itself owns: the engine name, the hosts with a created Lavalink server
connection (`serversStorage` keys), and the per-guild players object. -/
structure PlayerInstance where
  engine : String
  serversStorage : List String := []
  players : List (String × Player) := []
deriving DecidableEq, Repr

/-- Result of one `PlayerInstance` method call: JS return value (type
`α`) or thrown error, the instance state afterwards, the `op: 4`
packets sent via `sendWS`, and the payloads sent to Lavalink servers
via `server.send` (through players), in order. -/
structure InstanceRes (α : Type) where
  result : Except String α
  inst : PlayerInstance
  sentWS : List VoiceStatePacket := []
  sentServer : List ServerMsg := []
deriving DecidableEq, Repr

/-- The payloads among a list of player effects that go to the Lavalink
server (`this.server.send` calls). -/
def sentOf : List Effect → List ServerMsg
  | [] => []
  | .send m :: rest => m :: sentOf rest
  | .emit _ :: rest => sentOf rest

/-- Argument bag of `PlayerInstance.join` (and, with the same fields,
of `returnPlayer`). -/
structure JoinOptions where
  host : String
  guildID : String
  channelID : String
  muted : Bool := false
  deafen : Bool := false
deriving DecidableEq, Repr

namespace PlayerInstance

/-- Method `PlayerInstance.returnPlayer(options)`: returns the stored player
for the guild if any; otherwise looks the host up in `serversStorage`
(throwing when absent), constructs a new `Player` with the constructor
defaults, stores it under the guild ID and returns it. -/
def returnPlayer (inst : PlayerInstance) (options : JoinOptions) :
    InstanceRes Player :=
  match List.lookup options.guildID inst.players with
  | some player => { result := .ok player, inst := inst }
  | none =>
    if options.host ∈ inst.serversStorage then
      let player : Player :=
        { server := options.host
          guildID := options.guildID
          channelID := options.channelID }
      { result := .ok player
        inst := { inst with players := objSet inst.players options.guildID player } }
    else
      { result := .error
          ("No Lavalink server found at host " ++ options.host ++ ". Please provide a valid host.")
        inst := inst }

/-- Method `PlayerInstance.join(options)`: throws on a missing/non-object
argument; returns the stored player immediately when one exists for the
guild; otherwise runs the engine-specific channel and permission checks
(they read only external chat-client state and are abstracted here by
`channelCheck`: `none` when they pass, `some e` when they throw `e`),
sends the `op: 4` voice-state packet through `sendWS`, and delegates to
`returnPlayer`. -/
def join (inst : PlayerInstance) (options : Option JoinOptions)
    (channelCheck : Option String) : InstanceRes Player :=
  match options with
  | none =>
    { result := .error "Please provide valid options to join a voice channel!"
      inst := inst }
  | some opts =>
    match List.lookup opts.guildID inst.players with
    | some player => { result := .ok player, inst := inst }
    | none =>
      match channelCheck with
      | some e => { result := .error e, inst := inst }
      | none =>
        let pkt : VoiceStatePacket :=
          { guild_id := opts.guildID
            channel_id := some opts.channelID
            self_mute := opts.muted
            self_deaf := opts.deafen }
        let r := inst.returnPlayer
          { host := opts.host, guildID := opts.guildID, channelID := opts.channelID }
        { result := r.result, inst := r.inst, sentWS := [pkt], sentServer := r.sentServer }

/-- Method `PlayerInstance.leave(guildID)`: throws on a falsy guild ID; always
sends the `op: 4` disconnect packet; then returns `false` when no
player is stored for the guild, and otherwise stops and destroys the
stored player, deletes it from `players` and returns `true`. -/
def leave (inst : PlayerInstance) (guildID : Option String) : InstanceRes Bool :=
  if strFalsy guildID then
    { result := .error "Please provide a valid guild ID to leave a voice channel!"
      inst := inst }
  else
    let g := guildID.getD ""
    let pkt : VoiceStatePacket :=
      { guild_id := g, channel_id := none, self_mute := false, self_deaf := false }
    match List.lookup g inst.players with
    | none => { result := .ok false, inst := inst, sentWS := [pkt] }
    | some player =>
      let s := player.stop
      let d := s.player.destroy
      { result := .ok true
        inst := { inst with players := objDelete inst.players g }
        sentWS := [pkt]
        sentServer := sentOf s.effects ++ sentOf d.effects }

/-- Method `PlayerInstance.voiceServerUpdate(packet)`: returns silently when no
player is stored for `packet.guild_id` or when the chat client does not
know the guild (`guildKnown`, external client state); otherwise calls
`player.connect` with the session ID read from the client
(`sessionID`, external client state) and the packet as the event. -/
def voiceServerUpdate (inst : PlayerInstance) (packet : RawVoicePacket)
    (guildKnown : Bool) (sessionID : String) : InstanceRes Unit :=
  match List.lookup packet.guild_id inst.players with
  | none => { result := .ok (), inst := inst }
  | some player =>
    if ¬guildKnown then { result := .ok (), inst := inst }
    else
      let c := player.connect { session := sessionID, event := packet }
      { result := .ok (), inst := inst, sentServer := sentOf c.effects }

end PlayerInstance

/-- A concrete player used to instantiate hypotheses of the claim
theorems on explicit inputs. -/
def samplePlayer : Player :=
  { server := "host", guildID := "guild", channelID := "chan" }

/-- Concrete `join` options matching `samplePlayer`. -/
def sampleJoinOptions : JoinOptions :=
  { host := "host", guildID := "guild", channelID := "chan" }

/-- A concrete instance with one server connection and no players. -/
def sampleInstance : PlayerInstance :=
  { engine := "discordjs", serversStorage := ["host"] }

/-- A concrete instance that already stores `samplePlayer` for guild
`"guild"`. -/
def sampleInstanceJoined : PlayerInstance :=
  { engine := "discordjs", serversStorage := ["host"]
    players := [("guild", samplePlayer)] }

/-- A concrete Lavalink track-end event message. -/
def sampleEndMessage : EventMessage :=
  { type := "TrackEndEvent", reason := some "FINISHED" }

/-! ## Helper lemmas about the embedded `setVolume` arithmetic -/

theorem ratTrunc_intCast (n : ℤ) : Player.ratTrunc (n : ℚ) = n := by
  unfold Player.ratTrunc
  split <;> simp

theorem ratTrunc_one : Player.ratTrunc (1 : ℚ) = 1 := by
  simpa using ratTrunc_intCast 1

/-- On a nonzero mathematical integer, the JS integrality test
`volume % parseInt(volume) !== 0` of `setVolume` is false. -/
theorem remNonzero_intCast (n : ℤ) (hn : n ≠ 0) :
    Player.remNonzero (n : ℚ) = false := by
  have hq : ((n : ℚ)) ≠ 0 := Int.cast_ne_zero.mpr hn
  unfold Player.remNonzero
  rw [ratTrunc_intCast, if_neg hn, div_self hq, ratTrunc_one]
  simp

/-- Conversely, a rational that passes the JS integrality test of
`setVolume` is a mathematical integer. -/
theorem remNonzero_eq_false (q : ℚ) (h : Player.remNonzero q = false) :
    ∃ n : ℤ, q = (n : ℚ) := by
  unfold Player.remNonzero at h
  by_cases ht : Player.ratTrunc q = 0
  · rw [if_pos ht] at h
    cases h
  · rw [if_neg ht] at h
    have h2 : q - (Player.ratTrunc q : ℚ) *
        ((Player.ratTrunc (q / (Player.ratTrunc q : ℚ))) : ℚ) = 0 := by
      simpa using h
    refine ⟨Player.ratTrunc q * Player.ratTrunc (q / (Player.ratTrunc q : ℚ)), ?_⟩
    push_cast
    linarith

/-! ## Claim C1 -/

/-- C1 (counterexample). The claim says `setVolume(v, true)` succeeds for
every integer `0 ≤ v ≤ 1000`; at `v = 0` the first validation check of
`Player.setVolume` (`!volume`) is hit, because `0` is falsy in JS, and
the call throws instead of succeeding. -/
theorem setVolume_zero_force_throws :
    samplePlayer.setVolume (some ((0 : ℤ) : ℚ)) true =
      { result := .error "Please provide a valid volume value!"
        player := samplePlayer
        effects := [] } := by
  simp [Player.setVolume]

/-- C1 (amended). For every integer volume `v` with `1 ≤ v ≤ 1000`,
`Player.setVolume(v, true)` does not throw, sends a `volume` command for
the player's guild, and sets `state.volume` to `v`. -/
theorem setVolume_intRange_force_ok (p : Player) (v : ℤ)
    (h1 : 1 ≤ v) (h2 : v ≤ 1000) :
    p.setVolume (some (v : ℚ)) true =
      { result := .ok .thisPlayer
        player := { p with volume := (v : ℚ) }
        effects := [.send (.volume p.guildID (v : ℚ))] } := by
  have hv0 : v ≠ 0 := by omega
  have hq0 : ((v : ℚ)) ≠ 0 := Int.cast_ne_zero.mpr hv0
  have hq1 : (0 : ℚ) ≤ (v : ℚ) := by exact_mod_cast (by omega : (0 : ℤ) ≤ v)
  have hq2 : (v : ℚ) ≤ 1000 := by exact_mod_cast h2
  have hrem := remNonzero_intCast v hv0
  simp only [Player.setVolume]
  rw [if_neg hq0]
  rw [if_neg (by simp [hq0, hrem] : ¬((v : ℚ) = 0 ∨ Player.remNonzero (v : ℚ) = true))]
  rw [if_neg (by push_neg; exact ⟨hq1, hq2⟩ : ¬((v : ℚ) < 0 ∨ 1000 < (v : ℚ)))]
  simp

/-- C1 (witness). The amended claim holds at the concrete volume `1000`
on a concrete player. -/
theorem setVolume_intRange_force_ok_witness :
    samplePlayer.setVolume (some ((1000 : ℤ) : ℚ)) true =
      { result := .ok .thisPlayer
        player := { samplePlayer with volume := ((1000 : ℤ) : ℚ) }
        effects := [.send (.volume samplePlayer.guildID ((1000 : ℤ) : ℚ))] } :=
  setVolume_intRange_force_ok samplePlayer 1000 (by norm_num) (by norm_num)

/-! ## Claim C2 -/

/-- C2. For every volume argument that is missing, non-integer, below
`0`, above `1000`, or above `100` without `force`, `Player.setVolume`
throws, the player state is unchanged and no command is sent: all four
validation checks precede the `server.send` call and the assignment to
`state.volume`. -/
theorem setVolume_invalid_throws (p : Player) (v : Option ℚ) (force : Bool)
    (h : v = none ∨ ∃ q : ℚ, v = some q ∧
      ((¬ ∃ n : ℤ, q = (n : ℚ)) ∨ q < 0 ∨ 1000 < q ∨ (100 < q ∧ force = false))) :
    ∃ e, p.setVolume v force = { result := .error e, player := p, effects := [] } := by
  rcases h with rfl | ⟨q, rfl, hq⟩
  · exact ⟨_, rfl⟩
  · simp only [Player.setVolume]
    split_ifs with h1 h2 h3 h4
    · exact ⟨_, rfl⟩
    · exact ⟨_, rfl⟩
    · exact ⟨_, rfl⟩
    · exact ⟨_, rfl⟩
    · exfalso
      push_neg at h2 h3
      obtain ⟨n, rfl⟩ := remNonzero_eq_false q (by simpa using h2.2)
      rcases hq with hint | hlt | hgt | ⟨hgt100, hforce⟩
      · exact hint ⟨n, rfl⟩
      · exact absurd hlt (not_lt.mpr h3.1)
      · exact absurd hgt (not_lt.mpr h3.2)
      · subst hforce
        exact h4 ⟨hgt100, by simp⟩

/-- C2 (witness). A missing volume argument on a concrete player throws
and leaves the player untouched with nothing sent. -/
theorem setVolume_invalid_throws_witness :
    ∃ e, samplePlayer.setVolume none false =
      { result := .error e, player := samplePlayer, effects := [] } :=
  setVolume_invalid_throws samplePlayer none false (Or.inl rfl)

/-! ## Claim C3 -/

/-- C3. `Player.play(track, options)` throws exactly when `track` is
falsy; otherwise it sends a `play` command with the player's guild ID
and the track, sets `currentTrack` to the track, and sets `isPlaying`
to `true`. -/
theorem play_spec (p : Player) (track : Option String) (now : ℕ) :
    ((∃ e, (p.play track now).result = .error e) ↔ strFalsy track = true) ∧
    (∀ t : String, track = some t → strFalsy track = false →
      p.play track now =
        { result := .ok .thisPlayer
          player :=
            { p with
              currentTrack := some t
              isPlaying := true
              startPlayingTimestamp := some now }
          effects := [.send (.play p.guildID t)] }) := by
  constructor
  · by_cases hf : strFalsy track
    · simp [Player.play, hf]
    · simp [Player.play, hf]
  · rintro t rfl hf
    simp [Player.play, hf]

/-- C3 (witness). Playing a concrete nonempty track on a concrete player
succeeds with exactly the state updates and the `play` command of the
claim. -/
theorem play_spec_witness :
    samplePlayer.play (some "dQw4w9WgXcQ") 42 =
      { result := .ok .thisPlayer
        player :=
          { samplePlayer with
            currentTrack := some "dQw4w9WgXcQ"
            isPlaying := true
            startPlayingTimestamp := some 42 }
        effects := [.send (.play samplePlayer.guildID "dQw4w9WgXcQ")] } :=
  (play_spec samplePlayer (some "dQw4w9WgXcQ") 42).2 "dQw4w9WgXcQ" rfl rfl

/-! ## List lemmas about the embedded players object -/

/-- Storing under an absent key appends exactly one entry. -/
theorem objSet_eq_append (ps : List (String × Player)) (k : String) (v : Player)
    (h : List.lookup k ps = none) : objSet ps k v = ps ++ [(k, v)] := by
  induction ps with
  | nil => rfl
  | cons hd tl ih =>
    obtain ⟨k', v'⟩ := hd
    by_cases hk : k' = k
    · subst hk
      simp [List.lookup] at h
    · have hk2 : (k == k') = false := beq_false_of_ne fun hh => hk hh.symm
      simp only [List.lookup, hk2] at h
      rw [objSet, if_neg hk, List.cons_append, ih h]

/-- Looking up the key just appended to a list not containing it. -/
theorem lookup_append_singleton (ps : List (String × Player)) (k : String) (v : Player)
    (h : List.lookup k ps = none) : List.lookup k (ps ++ [(k, v)]) = some v := by
  induction ps with
  | nil => simp [List.lookup]
  | cons hd tl ih =>
    obtain ⟨k', v'⟩ := hd
    by_cases hk : k = k'
    · subst hk
      simp [List.lookup] at h
    · have hk2 : (k == k') = false := beq_false_of_ne hk
      simp only [List.lookup, hk2] at h
      simpa only [List.cons_append, List.lookup, hk2] using ih h

/-- After a `delete`, looking the key up yields nothing. -/
theorem lookup_objDelete (ps : List (String × Player)) (k : String) :
    List.lookup k (objDelete ps k) = none := by
  induction ps with
  | nil => rfl
  | cons hd tl ih =>
    obtain ⟨k', v'⟩ := hd
    by_cases hk : k' = k
    · subst hk
      simpa [objDelete, List.filter] using ih
    · have hk2 : (k == k') = false := beq_false_of_ne fun hh => hk hh.symm
      simpa [objDelete, List.filter, hk, List.lookup, hk2] using ih

/-! ## Claim C4 -/

/-- C4. `PlayerInstance.join` is create-on-join and idempotent per
guild: when no player is stored for the guild, a successful join stores
the returned player as exactly one new entry under the guild ID; when a
player is already stored for the guild, join returns exactly that
player, changes nothing, and sends no voice-state packet. -/
theorem join_create_idempotent (inst : PlayerInstance) (opts : JoinOptions)
    (channelCheck : Option String) :
    (∀ p : Player, List.lookup opts.guildID inst.players = some p →
      inst.join (some opts) channelCheck =
        { result := .ok p, inst := inst, sentWS := [], sentServer := [] }) ∧
    (∀ p : Player, List.lookup opts.guildID inst.players = none →
      (inst.join (some opts) channelCheck).result = .ok p →
      (inst.join (some opts) channelCheck).inst.players
          = inst.players ++ [(opts.guildID, p)] ∧
      List.lookup opts.guildID (inst.join (some opts) channelCheck).inst.players
          = some p) := by
  constructor
  · intro p hp
    simp [PlayerInstance.join, hp]
  · intro p hnone hok
    rcases channelCheck with _ | e
    · simp only [PlayerInstance.join, PlayerInstance.returnPlayer, hnone] at hok ⊢
      by_cases hh : opts.host ∈ inst.serversStorage
      · rw [if_pos hh] at hok ⊢
        obtain rfl :
            ({ server := opts.host
               guildID := opts.guildID
               channelID := opts.channelID } : Player) = p := by
          simpa using hok
        refine ⟨?_, ?_⟩
        · exact objSet_eq_append _ _ _ hnone
        · show List.lookup opts.guildID (objSet inst.players opts.guildID _) = _
          rw [objSet_eq_append _ _ _ hnone]
          exact lookup_append_singleton _ _ _ hnone
      · rw [if_neg hh] at hok
        simp at hok
    · simp only [PlayerInstance.join, hnone] at hok
      simp at hok

/-- C4 (witness). On a concrete instance with no players, a first join
appends exactly the new player under the guild ID; on a concrete
instance already storing that player, a second join returns it
unchanged with no packet sent. -/
theorem join_create_idempotent_witness :
    ((sampleInstance.join (some sampleJoinOptions) none).inst.players
        = sampleInstance.players ++ [("guild", samplePlayer)] ∧
      List.lookup "guild" (sampleInstance.join (some sampleJoinOptions) none).inst.players
        = some samplePlayer) ∧
    sampleInstanceJoined.join (some sampleJoinOptions) none =
      { result := .ok samplePlayer, inst := sampleInstanceJoined
        sentWS := [], sentServer := [] } := by
  constructor
  · exact (join_create_idempotent sampleInstance sampleJoinOptions none).2
      samplePlayer rfl rfl
  · exact (join_create_idempotent sampleInstanceJoined sampleJoinOptions none).1
      samplePlayer rfl

/-! ## Claim C5 -/

/-- C5. `PlayerInstance.leave` throws exactly when the guild ID is
falsy; otherwise no player remains stored for the guild afterwards, and
it returns `false` when no player existed, `true` when the stored
player was stopped (a `stop` payload), destroyed (a `destroy` payload)
and removed from `players`. -/
theorem leave_delete_spec (inst : PlayerInstance) (guildID : Option String) :
    (strFalsy guildID = true →
      inst.leave guildID =
        { result := .error "Please provide a valid guild ID to leave a voice channel!"
          inst := inst, sentWS := [], sentServer := [] }) ∧
    (∀ g : String, guildID = some g → strFalsy guildID = false →
      List.lookup g (inst.leave guildID).inst.players = none ∧
      (List.lookup g inst.players = none →
        (inst.leave guildID).result = .ok false ∧
        (inst.leave guildID).inst = inst) ∧
      (∀ p : Player, List.lookup g inst.players = some p →
        (inst.leave guildID).result = .ok true ∧
        (inst.leave guildID).sentServer = [.stop p.guildID, .destroy p.guildID] ∧
        (inst.leave guildID).inst.players = objDelete inst.players g)) := by
  constructor
  · intro hf
    simp [PlayerInstance.leave, hf]
  · rintro g rfl hf
    refine ⟨?_, ?_, ?_⟩
    · rcases hp : List.lookup g inst.players with _ | p
      · simp [PlayerInstance.leave, hf, hp]
      · simp only [PlayerInstance.leave, hf, Bool.false_eq_true, if_false,
          Option.getD_some, hp]
        exact lookup_objDelete inst.players g
    · intro hp
      simp [PlayerInstance.leave, hf, hp]
    · intro p hp
      simp [PlayerInstance.leave, hf, hp, Player.stop, Player.destroy, sentOf]

/-- C5 (witness). On concrete instances: a falsy guild ID throws, a
guild without a player yields `false`, and a guild with a stored player
yields `true` with the `stop` and `destroy` payloads and the player
removed. -/
theorem leave_delete_spec_witness :
    (sampleInstance.leave none =
      { result := .error "Please provide a valid guild ID to leave a voice channel!"
        inst := sampleInstance, sentWS := [], sentServer := [] }) ∧
    ((sampleInstance.leave (some "guild")).result = .ok false ∧
      (sampleInstance.leave (some "guild")).inst = sampleInstance) ∧
    ((sampleInstanceJoined.leave (some "guild")).result = .ok true ∧
      (sampleInstanceJoined.leave (some "guild")).sentServer
        = [.stop samplePlayer.guildID, .destroy samplePlayer.guildID] ∧
      (sampleInstanceJoined.leave (some "guild")).inst.players
        = objDelete sampleInstanceJoined.players "guild") := by
  refine ⟨?_, ?_, ?_⟩
  · exact (leave_delete_spec sampleInstance none).1 rfl
  · exact ((leave_delete_spec sampleInstance (some "guild")).2 "guild" rfl rfl).2.1 rfl
  · exact ((leave_delete_spec sampleInstanceJoined (some "guild")).2 "guild" rfl rfl).2.2
      samplePlayer rfl

/-! ## Claim C6 -/

/-- C6. `PlayerInstance.voiceServerUpdate`: when a player is stored for
the packet's guild (under its own guild ID, as `join` stores it) and
the guild is known to the chat client, exactly one `voiceUpdate`
payload is sent, carrying the guild ID, the session ID, and the packet
as the event; when no player is stored, nothing is sent. -/
theorem voiceServerUpdate_relay (inst : PlayerInstance) (packet : RawVoicePacket)
    (guildKnown : Bool) (sessionID : String) :
    (∀ p : Player, List.lookup packet.guild_id inst.players = some p →
      p.guildID = packet.guild_id → guildKnown = true →
      inst.voiceServerUpdate packet guildKnown sessionID =
        { result := .ok (), inst := inst, sentWS := []
          sentServer := [.voiceUpdate packet.guild_id sessionID packet] }) ∧
    (List.lookup packet.guild_id inst.players = none →
      inst.voiceServerUpdate packet guildKnown sessionID =
        { result := .ok (), inst := inst, sentWS := [], sentServer := [] }) := by
  constructor
  · rintro p hp hpg rfl
    simp [PlayerInstance.voiceServerUpdate, hp, Player.connect, sentOf, hpg]
  · intro hnone
    simp [PlayerInstance.voiceServerUpdate, hnone]

/-- C6 (witness). On a concrete instance storing a player for the
packet's guild, the handshake is relayed as one concrete `voiceUpdate`
payload; on a concrete instance without a player, nothing is sent. -/
theorem voiceServerUpdate_relay_witness :
    (sampleInstanceJoined.voiceServerUpdate { guild_id := "guild" } true "sess" =
      { result := .ok (), inst := sampleInstanceJoined, sentWS := []
        sentServer := [.voiceUpdate "guild" "sess" { guild_id := "guild" }] }) ∧
    (sampleInstance.voiceServerUpdate { guild_id := "guild" } true "sess" =
      { result := .ok (), inst := sampleInstance, sentWS := [], sentServer := [] }) :=
  ⟨(voiceServerUpdate_relay sampleInstanceJoined { guild_id := "guild" } true "sess").1
      samplePlayer rfl rfl rfl,
    (voiceServerUpdate_relay sampleInstance { guild_id := "guild" } true "sess").2 rfl⟩

/-! ## Claim C7 -/

/-- C7. `Player.stop()` always sends a `stop` command for the player's
guild, clears `isPlaying` and `currentTrack`; `Player.disconnect`
reaches the same post-state through `stop`, whose effect precedes the
`disconnect` event in the effect list. -/
theorem stop_disconnect_spec (p : Player) (reason : String) :
    p.stop =
      { result := .ok .thisPlayer
        player := { p with isPlaying := false, currentTrack := none }
        effects := [.send (.stop p.guildID)] } ∧
    p.disconnect reason =
      { result := .ok .thisPlayer
        player := p.stop.player
        effects := p.stop.effects ++ [.emit (.disconnect reason)] } ∧
    (p.disconnect reason).player.isPlaying = false ∧
    (p.disconnect reason).player.currentTrack = none :=
  ⟨rfl, rfl, rfl, rfl⟩

/-! ## Claim C8 -/

/-- C8. After `Player.pause(p)` both `isPaused` and `isPlaying` equal
the truthiness of the argument: the code assigns `isPlaying = !!paused`,
so pausing leaves `isPlaying` true and resuming leaves it false. -/
theorem pause_sets_both_flags (p : Player) (paused : Bool) :
    (p.pause paused).player.isPaused = paused ∧
    (p.pause paused).player.isPlaying = paused ∧
    (p.pause true).player.isPlaying = true ∧
    (p.pause false).player.isPlaying = false :=
  ⟨rfl, rfl, rfl, rfl⟩

/-! ## Claim C9 -/

/-- C9. Processing a `TrackEndEvent` message through
`Player.eventEmitter` leaves `currentTrack` and `isPlaying` unchanged
for every end reason: only the unrelated fields `playing` and `track`
are ever assigned, and a single `trackEnd` event is emitted with the
message. -/
theorem trackEnd_frame (p : Player) (message : EventMessage)
    (errorListeners : ℕ) (h : message.type = "TrackEndEvent") :
    ((p.eventEmitter message errorListeners).1.currentTrack = p.currentTrack) ∧
    ((p.eventEmitter message errorListeners).1.isPlaying = p.isPlaying) ∧
    (∃ pl tr, (p.eventEmitter message errorListeners).1
      = { p with playing := pl, track := tr }) ∧
    ((p.eventEmitter message errorListeners).2 = [.emit (.trackEnd message)]) := by
  simp only [Player.eventEmitter, h, if_true]
  by_cases hr : message.reason = some "REPLACED"
  · simp only [hr, ne_eq, not_true_eq_false, if_neg, ite_false]
    exact ⟨rfl, rfl, ⟨p.playing, p.track, rfl⟩, rfl⟩
  · simp only [ne_eq, hr, not_false_eq_true, if_pos, ite_true]
    exact ⟨rfl, rfl, ⟨some false, some none, rfl⟩, rfl⟩

/-- C9 (witness). A concrete `TrackEndEvent` with reason `FINISHED` on a
concrete player leaves `currentTrack` and `isPlaying` as they were and
emits exactly one `trackEnd` event with the message. -/
theorem trackEnd_frame_witness :
    ((samplePlayer.eventEmitter sampleEndMessage 0).1.currentTrack
        = samplePlayer.currentTrack) ∧
    ((samplePlayer.eventEmitter sampleEndMessage 0).1.isPlaying
        = samplePlayer.isPlaying) ∧
    (∃ pl tr, (samplePlayer.eventEmitter sampleEndMessage 0).1
        = { samplePlayer with playing := pl, track := tr }) ∧
    ((samplePlayer.eventEmitter sampleEndMessage 0).2
        = [.emit (.trackEnd sampleEndMessage)]) :=
  trackEnd_frame samplePlayer sampleEndMessage 0 rfl

/-! ## Claim C10 -/

/-- C10. `Player.resume()` and `Player.skip()` return `undefined`
rather than the player, although the `pause(false)` and `stop()` calls
they delegate to do return the player. -/
theorem resume_skip_return_undefined (p : Player) :
    p.resume.result = .ok .undefined ∧
    p.skip.result = .ok .undefined ∧
    (p.pause false).result = .ok .thisPlayer ∧
    p.stop.result = .ok .thisPlayer :=
  ⟨rfl, rfl, rfl, rfl⟩

end Lavalink
